import Mathlib

/-!
Verification development for the LeadBoost lead-processing backend.

The Python modules under `backend/` are shallowly embedded: pure string and
arithmetic logic is translated into executable Lean definitions (Python
floats become rationals, Python `None` becomes `Option`, dictionaries with
a fixed shape become structures with `Option` fields), and I/O boundaries
(HTTP fetches, LLM calls, the database) become explicit oracle parameters.
Definition names follow the Python method names.
-/

namespace LeadBoost

/-- The apostrophe character, used when building the Python string literals
of the source (templates and year markers) without quoting issues. -/
def apoChar : Char := Char.ofNat 39

/-- The apostrophe as a one-character string. -/
def apoS : String := String.singleton apoChar

/-- Boolean test that `pat` is a leading segment of `cs`. -/
def startsWithChars : List Char → List Char → Bool
  | [], _ => true
  | _ :: _, [] => false
  | a :: as, b :: bs => a == b && startsWithChars as bs

/-- Boolean test that `needle` occurs contiguously somewhere in `hay`. -/
def occursAt (needle : List Char) : List Char → Bool
  | [] => startsWithChars needle []
  | c :: rest => startsWithChars needle (c :: rest) || occursAt needle rest

/-- Python `needle in hay` substring test on strings. -/
def pyIn (needle hay : String) : Bool := occursAt needle.toList hay.toList

/-- Python `str.lower()` restricted to the ASCII range, as a structurally
recursive map so that it evaluates by kernel reduction. -/
def pyLower (s : String) : String := String.mk (s.toList.map Char.toLower)

/-- Replacement worker for `pyReplace`, with explicit fuel so that the
recursion is structural (the fuel is the length of the text, which bounds
the number of steps since every step consumes at least one character). -/
def replaceCharsAux (needle repl : List Char) : Nat → List Char → List Char
  | 0, cs => cs
  | _ + 1, [] => []
  | fuel + 1, c :: rest =>
    if !needle.isEmpty && startsWithChars needle (c :: rest) then
      repl ++ replaceCharsAux needle repl fuel ((c :: rest).drop needle.length)
    else c :: replaceCharsAux needle repl fuel rest

/-- Python `s.replace(needle, repl)`: left-to-right, non-overlapping. -/
def pyReplace (s needle repl : String) : String :=
  String.mk (replaceCharsAux needle.toList repl.toList s.toList.length s.toList)

/-- Python truthiness of an optional string: `None` and `""` are falsy. -/
def truthy : Option String → Bool
  | none => false
  | some s => !s.isEmpty

/-- Python `opt or dflt` for optional strings: the default is used for both
`None` and the empty string. -/
def orStr (o : Option String) (dflt : String) : String :=
  match o with
  | some s => if s.isEmpty then dflt else s
  | none => dflt

/-- Python regex `\s` character class (space, tab, newline, return,
vertical tab, form feed). -/
def pySpace (c : Char) : Bool :=
  c == ' ' || c == '\t' || c == '\n' || c == '\r' ||
    c == Char.ofNat 11 || c == Char.ofNat 12

/-- Python regex `\w` character class restricted to ASCII. -/
def wordChar (c : Char) : Bool := c.isAlphanum || c == '_'

/-- Greedy `\d+`: one or more leading digits, returned with the remainder.
Since a digit is never whitespace or a letter, the greedy match never needs
to backtrack against the patterns used in the source. -/
def matchDigits1 : List Char → Option (List Char × List Char)
  | c :: rest =>
    if c.isDigit then
      some ((c :: rest).takeWhile Char.isDigit, (c :: rest).dropWhile Char.isDigit)
    else none
  | [] => none

/-- Greedy `\s+`: require at least one whitespace character and drop the
whole run, returning the remainder. -/
def matchSpaces1 : List Char → Option (List Char)
  | c :: rest => if pySpace c then some ((c :: rest).dropWhile pySpace) else none
  | [] => none

/-- Greedy `\s+` keeping the consumed characters (needed when the
whitespace is part of a capture group). -/
def matchSpaces1K : List Char → Option (List Char × List Char)
  | c :: rest =>
    if pySpace c then
      some ((c :: rest).takeWhile pySpace, (c :: rest).dropWhile pySpace)
    else none
  | [] => none

/-- Greedy `\w+` keeping the consumed characters. -/
def matchWord1K : List Char → Option (List Char × List Char)
  | c :: rest =>
    if wordChar c then
      some ((c :: rest).takeWhile wordChar, (c :: rest).dropWhile wordChar)
    else none
  | [] => none

/-- Match a literal character sequence, returning the remainder. -/
def matchLit : List Char → List Char → Option (List Char)
  | [], cs => some cs
  | _ :: _, [] => none
  | a :: as, b :: bs => if a == b then matchLit as bs else none

/-- Case-insensitive literal match returning the consumed original
characters together with the remainder. -/
def matchLitCI : List Char → List Char → Option (List Char × List Char)
  | [], cs => some ([], cs)
  | _ :: _, [] => none
  | a :: as, b :: bs =>
    if a.toLower == b.toLower then
      (matchLitCI as bs).map (fun p => (b :: p.1, p.2))
    else none

/-- Ordered regex alternation of literals; none of the alternatives used in
the source is a proper leading segment of another, so trying them in order
without backtracking matches the regex semantics. -/
def matchAlt (alts : List String) (cs : List Char) : Option (List Char) :=
  alts.findSome? (fun a => matchLit a.toList cs)

/-- Ordered case-insensitive alternation keeping the consumed characters. -/
def matchAltCI (alts : List String) (cs : List Char) :
    Option (List Char × List Char) :=
  alts.findSome? (fun a => matchLitCI a.toList cs)

/-- Leftmost match: try the pattern at every start position from the left,
which is how `re.findall`-then-`matches[0]` selects a match. -/
def scanFirst {α : Type} (f : List Char → Option α) : List Char → Option α
  | [] => f []
  | c :: rest =>
    match f (c :: rest) with
    | some r => some r
    | none => scanFirst f rest

/-- Decimal value of a digit string. -/
def digitsToNat (ds : List Char) : Nat :=
  ds.foldl (fun n c => 10 * n + (c.toNat - 48)) 0

/-- Python `str.title()`: the first letter of every alphabetic run is
uppercased and the following letters are lowercased. -/
def pyTitle (s : String) : String :=
  String.mk ((s.toList.foldl
    (fun (acc : List Char × Bool) c =>
      if c.isAlpha then
        ((if acc.2 then c.toLower else c.toUpper) :: acc.1, true)
      else (c :: acc.1, false))
    ([], false)).1.reverse)

/-! ## Data model

`backend/core/domain/models/lead.py` — the columns of the `Lead` row that
the scraper, enricher, scorer and messenger read or write, with the
declared column defaults. Confidences are rationals standing for the
Python floats. -/

structure Lead where
  website : String
  organization_id : Nat := 0
  owner_id : Nat := 0
  company_name : Option String := none
  about_text : Option String := none
  industry : Option String := none
  employees : Option String := none
  revenue_band : Option String := none
  founded_year : Option Nat := none
  contact_name : Option String := none
  contact_title : Option String := none
  email : Option String := none
  phone : Option String := none
  linkedin_url : Option String := none
  score : ℚ := 0
  qualification_label : String := "Low Priority"
  scrape_confidence : ℚ := 0
  email_confidence : ℚ := 0
  enrichment_confidence : ℚ := 0
  scrape_source : String := "none"
  email_source : String := "none"
  enrichment_source : String := "none"
deriving DecidableEq

/-- A fresh `Lead` row as built by `create_lead` from a `LeadCreate`
payload: only `website`, `organization_id` and `owner_id` are set, every
other column takes its declared default. -/
def new_lead (website : String) (organization_id owner_id : Nat) : Lead :=
  { website := website, organization_id := organization_id, owner_id := owner_id }

/-! ## Waterfall enricher

`backend/core/infrastructure/enrichment/enricher.py`. -/

inductive EnrichmentMethod where
  | heuristic
  | external_api
  | llm
deriving DecidableEq

/-- String value of the `EnrichmentMethod` enum. -/
def EnrichmentMethod.value : EnrichmentMethod → String
  | .heuristic => "heuristic"
  | .external_api => "external_api"
  | .llm => "llm"

/-- The enrichment `data` dictionary: the six keys the enricher can set,
where `none` models the key being absent. -/
structure EnrichedData where
  industry : Option String := none
  employees : Option String := none
  revenue_band : Option String := none
  contact_name : Option String := none
  contact_title : Option String := none
  founded_year : Option Nat := none
deriving DecidableEq

/-- Python truthiness of the `enriched_data` dictionary: it is falsy when
no key has been set. -/
def EnrichedData.isEmptyDict (d : EnrichedData) : Bool :=
  d.industry.isNone && d.employees.isNone && d.revenue_band.isNone &&
    d.contact_name.isNone && d.contact_title.isNone && d.founded_year.isNone

/-- `EnrichmentResult` dataclass (the wall-clock `processing_time` field is
not modelled). -/
structure EnrichmentResult where
  success : Bool
  data : EnrichedData
  method : EnrichmentMethod
  confidence : ℚ
deriving DecidableEq

/-- The `scraped_data` dictionary as consumed by `_get_text_for_analysis`:
the keys it looks up, `none` modelling an absent key. The `jsonld` field
stands for the Python `str(...)` rendering of the JSON-LD payload. -/
structure ScrapedData where
  text_content : Option String := none
  description : Option String := none
  og_description : Option String := none
  title : Option String := none
  jsonld : Option String := none
deriving DecidableEq

/-- `WaterfallEnricher.industry_keywords`. -/
def industry_keywords : List (String × List String) :=
  [("Software",
    ["software", "saas", "platform", "cloud", "api", "app", "application",
     "tech", "technology"]),
   ("Consulting",
    ["consulting", "advisory", "services", "strategy", "business", "management"]),
   ("E-commerce",
    ["ecommerce", "retail", "shop", "store", "marketplace", "buy", "sell"]),
   ("Finance",
    ["finance", "banking", "investment", "fintech", "payment", "financial",
     "money"]),
   ("Healthcare",
    ["health", "medical", "clinic", "hospital", "care", "pharma", "healthcare"]),
   ("Marketing",
    ["marketing", "advertising", "media", "social", "campaign", "brand"]),
   ("Education",
    ["education", "learning", "school", "university", "course", "training",
     "edu"]),
   ("Real Estate",
    ["real estate", "property", "realestate", "estate", "housing", "rent",
     "buy"]),
   ("Travel",
    ["travel", "tourism", "hotel", "booking", "vacation", "flight", "airline"]),
   ("Food & Beverage",
    ["restaurant", "food", "beverage", "cafe", "catering", "delivery"])]

/-- `WaterfallEnricher.employee_keywords`. -/
def employee_keywords : List (String × List String) :=
  [("1-10", ["startup", "early stage", "small team", "small business"]),
   ("11-50", ["growing", "medium sized", "expanding", "scale up"]),
   ("51-200", ["established", "mid sized", "corporate", "professional"]),
   ("201-500", ["large", "enterprise", "major", "substantial"]),
   ("500+", ["huge", "massive", "very large", "major corporation"])]

/-- `WaterfallEnricher._get_text_for_analysis`: concatenate the available
text sources with single spaces. `company_name` and `about_text` are
tested for truthiness, the scraped keys for presence, and exactly one of
`text_content`, `description`, `og_description`, `title` is used. -/
def get_text_for_analysis (lead : Lead) (scraped : ScrapedData) : String :=
  let t1 : List String :=
    match lead.company_name with
    | some n => if n.isEmpty then [] else ["Company: " ++ n]
    | none => []
  let t2 : List String :=
    match lead.about_text with
    | some a => if a.isEmpty then [] else [a]
    | none => []
  let t3 : List String :=
    match scraped.text_content with
    | some t => [t]
    | none =>
      match scraped.description with
      | some d => [d]
      | none =>
        match scraped.og_description with
        | some o => [o]
        | none =>
          match scraped.title with
          | some ti => [ti]
          | none => []
  let t4 : List String :=
    match scraped.jsonld with
    | some j => [j]
    | none => []
  String.intercalate " " (t1 ++ t2 ++ t3 ++ t4)

/-- `WaterfallEnricher._infer_industry`: count keyword hits per industry,
keep only positive scores, and return the first industry attaining the
maximal score (Python `max` over the insertion-ordered dict). -/
def infer_industry (text : String) : Option String :=
  let industry_scores :=
    (industry_keywords.map
      (fun p => (p.1, (p.2.filter (fun k => pyIn k text)).length))).filter
      (fun q => 0 < q.2)
  match industry_scores with
  | [] => none
  | q :: rest =>
    some ((rest.foldl (fun best r => if best.2 < r.2 then r else best) q).1)

/-- Pattern `(\d+)\s+employees?`: the optional trailing `s` constrains
nothing after `employee` has matched, so it is not represented. -/
def empPat1 (cs : List Char) : Option Nat := do
  let (ds, r1) ← matchDigits1 cs
  let r2 ← matchSpaces1 r1
  let _ ← matchLit "employee".toList r2
  pure (digitsToNat ds)

/-- Pattern `team\s+of\s+(\d+)`. -/
def empPat2 (cs : List Char) : Option Nat := do
  let r1 ← matchLit "team".toList cs
  let r2 ← matchSpaces1 r1
  let r3 ← matchLit "of".toList r2
  let r4 ← matchSpaces1 r3
  let (ds, _) ← matchDigits1 r4
  pure (digitsToNat ds)

/-- Pattern `(\d+)\s+person\s+team`. -/
def empPat3 (cs : List Char) : Option Nat := do
  let (ds, r1) ← matchDigits1 cs
  let r2 ← matchSpaces1 r1
  let r3 ← matchLit "person".toList r2
  let r4 ← matchSpaces1 r3
  let _ ← matchLit "team".toList r4
  pure (digitsToNat ds)

/-- Pattern `(\d+)\s+staff`. -/
def empPat4 (cs : List Char) : Option Nat := do
  let (ds, r1) ← matchDigits1 cs
  let r2 ← matchSpaces1 r1
  let _ ← matchLit "staff".toList r2
  pure (digitsToNat ds)

/-- Mapping of an extracted head count to an employee band, as in the
`count <= 10 / 50 / 200 / 500` chain of `_estimate_employees`. -/
def bandOfCount (n : Nat) : String :=
  if n ≤ 10 then "1-10"
  else if n ≤ 50 then "11-50"
  else if n ≤ 200 then "51-200"
  else if n ≤ 500 then "201-500"
  else "500+"

/-- `WaterfallEnricher._estimate_employees`: first the keyword table in
order, then the four regex patterns in order, using the first match of the
first matching pattern. -/
def estimate_employees (text : String) : Option String :=
  match employee_keywords.findSome?
      (fun p => if p.2.any (fun k => pyIn k text) then some p.1 else none) with
  | some band => some band
  | none =>
    match ([empPat1, empPat2, empPat3, empPat4].findSome?
        (fun p => scanFirst p text.toList)) with
    | some n => some (bandOfCount n)
    | none => none

/-- `WaterfallEnricher._estimate_revenue_from_employees`. -/
def estimate_revenue_from_employees (employees : String) : Option String :=
  if employees = "1-10" then some "$0-1M"
  else if employees = "11-50" then some "$1M-10M"
  else if employees = "51-200" then some "$10M-50M"
  else if employees = "201-500" then some "$50M-100M"
  else if employees = "500+" then some "$100M+"
  else none

/-- Name fragment `[A-Z][a-z]+\s[A-Z][a-z]+`, returning the captured
characters and the remainder. Greedy `[a-z]+` never backtracks usefully
here because a shorter run ends at a lowercase letter where `\s` or the
pattern end is required. -/
def matchName : List Char → Option (List Char × List Char)
  | u1 :: rest =>
    if u1.isUpper then
      match rest with
      | c :: _ =>
        if c.isLower then
          let ls1 := rest.takeWhile Char.isLower
          let r1 := rest.dropWhile Char.isLower
          match r1 with
          | s :: r2 =>
            if pySpace s then
              match r2 with
              | u2 :: rest2 =>
                if u2.isUpper then
                  match rest2 with
                  | c2 :: _ =>
                    if c2.isLower then
                      some (u1 :: ls1 ++ s :: u2 :: rest2.takeWhile Char.isLower,
                        rest2.dropWhile Char.isLower)
                    else none
                  | [] => none
                else none
              | [] => none
            else none
          | [] => none
        else none
      | [] => none
    else none
  | [] => none

/-- Title vocabulary of the first contact-person pattern. -/
def titles1 : List String :=
  ["CEO", "Founder", "President", "CTO", "CFO", "COO", "Director", "Manager",
   "Lead"]

/-- Title vocabulary of the second contact-person pattern. -/
def titles2 : List String := ["Founder", "Owner", "Director", "Manager", "Lead"]

/-- Title vocabulary of the third contact-person pattern. -/
def titles3 : List String := ["CEO", "CTO", "CFO", "COO"]

/-- Contact-person pattern shape `(?:titles)\s+([A-Z][a-z]+\s[A-Z][a-z]+)`. -/
def namePatA (titles : List String) (cs : List Char) : Option String := do
  let r1 ← matchAlt titles cs
  let r2 ← matchSpaces1 r1
  let (nm, _) ← matchName r2
  pure (String.mk nm)

/-- Contact-person pattern `([A-Z][a-z]+\s[A-Z][a-z]+)\s+(?:titles1)`. -/
def namePat4 (cs : List Char) : Option String := do
  let (nm, r1) ← matchName cs
  let r2 ← matchSpaces1 r1
  let _ ← matchAlt titles1 r2
  pure (String.mk nm)

/-- `WaterfallEnricher._extract_contact_person`: four case-sensitive
patterns tried in order on the original text, first match of the first
matching pattern. -/
def extract_contact_person (text : String) : Option String :=
  let cs := text.toList
  [fun l => namePatA titles1 l, fun l => namePatA titles2 l,
   fun l => namePatA titles3 l, namePat4].findSome?
    (fun p => scanFirst p cs)

/-- Alternatives of the first contact-title pattern (the source lists
`President` twice). -/
def titleAlts : List String :=
  ["CEO", "Founder", "President", "CTO", "CFO", "COO", "Director", "Manager",
   "Lead", "VP", "President", "Owner"]

/-- Contact-title pattern `(CEO|Founder|...|Owner)` with `re.IGNORECASE`:
the captured text keeps the original case. -/
def titlePat1 (cs : List Char) : Option String :=
  (matchAltCI titleAlts cs).map (fun p => String.mk p.1)

/-- Contact-title pattern `(Chief\s+\w+\s+Officer)` with `re.IGNORECASE`. -/
def titlePat2 (cs : List Char) : Option String := do
  let (c1, r1) ← matchLitCI "Chief".toList cs
  let (s1, r2) ← matchSpaces1K r1
  let (w, r3) ← matchWord1K r2
  let (s2, r4) ← matchSpaces1K r3
  let (c2, _) ← matchLitCI "Officer".toList r4
  pure (String.mk (c1 ++ s1 ++ w ++ s2 ++ c2))

/-- `WaterfallEnricher._extract_contact_title`: two patterns in order, and
`str.title()` applied to the first captured match. -/
def extract_contact_title (text : String) : Option String :=
  (([titlePat1, titlePat2].findSome?
    (fun p => scanFirst p text.toList))).map pyTitle

/-- Keywords of the founded-year patterns. -/
def foundedKw : List String :=
  ["founded", "established", "started", "launched", "incorporated"]

/-- Year alternatives `19\d{2}|20\d{2}`, returning the captured four
characters and the remainder. -/
def matchYear4 : List Char → Option (List Char × List Char)
  | a :: b :: c :: d :: rest =>
    if ((a == '1' && b == '9') || (a == '2' && b == '0')) &&
        c.isDigit && d.isDigit then
      some ([a, b, c, d], rest)
    else none
  | _ => none

/-- Year alternatives `19\d{2}|20\d{2}|\x27\d{2}` (the last one starts with
an apostrophe, which is part of the capture). -/
def matchYearGroup (cs : List Char) : Option (List Char × List Char) :=
  match matchYear4 cs with
  | some r => some r
  | none =>
    match cs with
    | a :: c :: d :: rest =>
      if a == apoChar && c.isDigit && d.isDigit then some ([a, c, d], rest)
      else none
    | _ => none

/-- Founded-year pattern
`(?:founded|established|started|launched|incorporated)\s+in?\s+(year)`.
The `in?` element is a literal `i` followed by an optional `n`; declining
the optional `n` can never help because `\s+` does not match `n`. -/
def yearPat1 (cs : List Char) : Option (List Char) := do
  let r1 ← matchAlt foundedKw cs
  let r2 ← matchSpaces1 r1
  match r2 with
  | c :: rest =>
    if c == 'i' then
      let r3 :=
        match rest with
        | d :: rest2 => if d == 'n' then rest2 else d :: rest2
        | [] => []
      let r4 ← matchSpaces1 r3
      let (y, _) ← matchYearGroup r4
      pure y
    else none
  | [] => none

/-- Founded-year pattern `(?:keywords)\s+(year)`. -/
def yearPat2 (cs : List Char) : Option (List Char) := do
  let r1 ← matchAlt foundedKw cs
  let r2 ← matchSpaces1 r1
  let (y, _) ← matchYearGroup r2
  pure y

/-- Founded-year pattern `(19\d{2}|20\d{2})\s+(?:keywords)`. -/
def yearPat3 (cs : List Char) : Option (List Char) := do
  let (y, r1) ← matchYear4 cs
  let r2 ← matchSpaces1 r1
  let _ ← matchAlt foundedKw r2
  pure y

/-- Founded-year pattern `(?:since|from)\s+(19\d{2}|20\d{2})`. -/
def yearPat4 (cs : List Char) : Option (List Char) := do
  let r1 ← matchAlt ["since", "from"] cs
  let r2 ← matchSpaces1 r1
  let (y, _) ← matchYear4 r2
  pure y

/-- Normalisation and range filter applied to a captured year string in
`_extract_founded_year`: a capture starting with an apostrophe gets `20`
prefixed to its digits; the two-character branch (which would apply the
`< 50` rule) is kept although no capture of the patterns has length two;
the parsed year is accepted only in `[1900, 2030]`. -/
def yearFromCapture (year_str : List Char) : Option Nat :=
  let s :=
    if year_str.headI == apoChar then "20".toList ++ year_str.drop 1
    else if year_str.length == 2 then
      if digitsToNat year_str < 50 then "20".toList ++ year_str
      else "19".toList ++ year_str
    else year_str
  if s.all Char.isDigit then
    let y := digitsToNat s
    if 1900 ≤ y ∧ y ≤ 2030 then some y else none
  else none

/-- `WaterfallEnricher._extract_founded_year`: the four patterns in order;
for each, the first match is normalised and range-checked, and a rejected
year moves on to the next pattern. `re.IGNORECASE` is modelled by matching
on the lowercased text, which leaves the captured digits and apostrophe
unchanged. -/
def extract_founded_year (text : String) : Option Nat :=
  let cs := (pyLower text).toList
  [yearPat1, yearPat2, yearPat3, yearPat4].findSome?
    (fun p => (scanFirst p cs).bind yearFromCapture)

/-- `WaterfallEnricher._heuristic_enrichment`: run the six extractors on
the aggregated text, add the per-field confidence increments in source
order, return `None` for an empty data dictionary, and cap the confidence
at `0.9`. -/
def heuristic_enrichment (lead : Lead) (scraped : ScrapedData) :
    Option EnrichmentResult :=
  let text := get_text_for_analysis lead scraped
  let text_lower := pyLower text
  let industry := infer_industry text_lower
  let employees := estimate_employees text_lower
  let revenue_band :=
    match employees with
    | some e => estimate_revenue_from_employees e
    | none => none
  let contact_name := extract_contact_person text
  let contact_title := extract_contact_title text
  let founded_year := extract_founded_year text
  let d : EnrichedData :=
    { industry := industry, employees := employees, revenue_band := revenue_band,
      contact_name := contact_name, contact_title := contact_title,
      founded_year := founded_year }
  let confidence : ℚ :=
    (if industry.isSome then (3 : ℚ) / 10 else 0) +
    (if employees.isSome then (2 : ℚ) / 10 else 0) +
    (if revenue_band.isSome then (1 : ℚ) / 10 else 0) +
    (if contact_name.isSome then (3 : ℚ) / 20 else 0) +
    (if contact_title.isSome then (1 : ℚ) / 10 else 0) +
    (if founded_year.isSome then (3 : ℚ) / 20 else 0)
  if d.isEmptyDict then none
  else
    some { success := true, data := d, method := .heuristic,
           confidence := min confidence (9 / 10) }

/-- `WaterfallEnricher._external_api_enrichment`: the source is a
placeholder that always returns `None`. -/
def external_api_enrichment (_lead : Lead) (_scraped : ScrapedData) :
    Option EnrichmentResult :=
  none

/-- Confidence formula of `_llm_enrichment` for a response with
`field_count` non-null fields: `min(0.5 + 0.1 * field_count, 0.8)`. -/
def llm_confidence (field_count : Nat) : ℚ :=
  min ((1 : ℚ) / 2 + field_count * ((1 : ℚ) / 10)) ((4 : ℚ) / 5)

/-- `WaterfallEnricher.enrich_lead_data`: heuristic accepted above
confidence `0.7`, then the external API above `0.6`, then any LLM result.
The LLM call is a network effect and enters as the oracle `llm_result`
(it is `None` whenever the credential is missing or the call fails). -/
def enrich_lead_data (lead : Lead) (scraped : ScrapedData)
    (llm_result : Option EnrichmentResult) : Option EnrichmentResult :=
  let heuristic_result := heuristic_enrichment lead scraped
  let hGate :=
    match heuristic_result with
    | some h => decide (h.confidence > 7 / 10)
    | none => false
  if hGate then heuristic_result
  else
    let api_result := external_api_enrichment lead scraped
    let aGate :=
      match api_result with
      | some a => decide (a.confidence > 3 / 5)
      | none => false
    if aGate then api_result
    else
      match llm_result with
      | some l => some l
      | none => none

/-- Enrichment-stage merge of `process_lead_async`
(`backend/core/infrastructure/workers/orchestrator.py`): with no
enrichment result the lead row is untouched; with a result, confidence and
source are written and each data key present overwrites the lead field. -/
def merge_enrichment (lead : Lead) (result : Option EnrichmentResult) : Lead :=
  match result with
  | none => lead
  | some r =>
    { lead with
      enrichment_confidence := r.confidence,
      enrichment_source := r.method.value,
      industry := match r.data.industry with | some i => some i | none => lead.industry,
      employees := match r.data.employees with | some e => some e | none => lead.employees,
      revenue_band := match r.data.revenue_band with | some v => some v | none => lead.revenue_band,
      founded_year := match r.data.founded_year with | some y => some y | none => lead.founded_year,
      contact_name := match r.data.contact_name with | some c => some c | none => lead.contact_name,
      contact_title := match r.data.contact_title with | some c => some c | none => lead.contact_title }

/-! ## Tiered scraper

`backend/core/infrastructure/scraping/scraper.py`. The HTTP and browser
effects enter as oracle tier results; the confidence calculators are
embedded over the parts of the data dictionary they inspect. -/

inductive ScrapingMethod where
  | json_ld
  | structured_data
  | playwright
  | requests
deriving DecidableEq

/-- `ScrapingResult` dataclass (the `data` payload and wall-clock
`processing_time` are not needed by the dispatch logic and are left to the
per-tier confidence functions below). -/
structure ScrapingResult where
  success : Bool
  method : ScrapingMethod
  confidence : ℚ
deriving DecidableEq

/-- `TieredScraper.scrape`: tier 1 (JSON-LD) is returned when it succeeds
with confidence above `0.7`, else tier 2 (meta/structured) when it
succeeds with confidence above `0.5`, else the tier 3 result (the headless
browser, which internally falls back to a plain-request fetch when the
browser cannot launch). The second component records which tiers were
executed, in order. -/
def scrape (tier1 tier2 tier3 : ScrapingResult) :
    ScrapingResult × List ScrapingMethod :=
  if tier1.success && decide (tier1.confidence > 7 / 10) then
    (tier1, [.json_ld])
  else if tier2.success && decide (tier2.confidence > 1 / 2) then
    (tier2, [.json_ld, .structured_data])
  else
    (tier3, [.json_ld, .structured_data, .playwright])

/-- The `business_properties` list of `_calculate_json_ld_confidence`.
Note that the two camel-cased entries contain uppercase letters and are
searched for inside a lowercased string. -/
def business_properties : List String :=
  ["employeeCount", "revenue", "founded", "industry", "contactPoint",
   "location", "logo"]

/-- `TieredScraper._calculate_json_ld_confidence` over the flattened
JSON-LD dictionary, given its key set and the lowercased `str(data)`
rendering that the business-property loop searches. -/
def calculate_json_ld_confidence (keys : List String) (reprLower : String) : ℚ :=
  let score : ℚ := 0
  let score := if keys.contains "name" || keys.contains "legalName" then score + 3 / 10 else score
  let score := if keys.contains "description" then score + 1 / 5 else score
  let score := if keys.contains "url" then score + 1 / 10 else score
  let score := if keys.contains "email" || keys.contains "telephone" then score + 1 / 10 else score
  let score := if keys.contains "address" then score + 1 / 5 else score
  let score := if keys.contains "foundingDate" then score + 1 / 10 else score
  let score := business_properties.foldl
    (fun s prop => if pyIn prop reprLower then s + 1 / 10 else s) score
  min score 1

/-- The JSON-LD tier success result (`_extract_json_ld`, lines 151-160):
when at least one JSON-LD block parsed, the tier reports success with the
computed confidence. -/
def json_ld_tier_result (keys : List String) (reprLower : String) :
    ScrapingResult :=
  { success := true, method := .json_ld,
    confidence := calculate_json_ld_confidence keys reprLower }

/-- The data dictionary of the meta/structured tier as inspected by
`_calculate_meta_confidence` (the `.get` lookups are truthiness tests, so
an empty string counts as absent). -/
structure MetaData where
  title : Option String := none
  description : Option String := none
  og_title : Option String := none
  og_description : Option String := none
  og_image : Option String := none
  links : List String := []
deriving DecidableEq

/-- `TieredScraper._calculate_meta_confidence`. -/
def calculate_meta_confidence (d : MetaData) : ℚ :=
  let score : ℚ := 0
  let score := if truthy d.title then score + 3 / 10 else score
  let score := if truthy d.description then score + 3 / 10 else score
  let score := if truthy d.og_title || truthy d.og_description then score + 1 / 5 else score
  let score := if 0 < d.links.length then score + 1 / 10 else score
  let score := if truthy d.og_image then score + 1 / 10 else score
  min score 1

/-- The data dictionary of the headless tier as inspected by
`_calculate_playwright_confidence`. -/
structure PlaywrightData where
  title : Option String := none
  meta_description : Option String := none
  og_description : Option String := none
  email : Option String := none
  phone : Option String := none
  potential_company_name : Option String := none
  links : List String := []
deriving DecidableEq

/-- `TieredScraper._calculate_playwright_confidence`. -/
def calculate_playwright_confidence (d : PlaywrightData) : ℚ :=
  let score : ℚ := 3 / 10
  let score := if truthy d.title then score + 1 / 5 else score
  let score := if truthy d.meta_description || truthy d.og_description then score + 1 / 5 else score
  let score := if truthy d.email then score + 1 / 5 else score
  let score := if truthy d.phone then score + 1 / 10 else score
  let score := if 5 < d.links.length then score + 1 / 10 else score
  let score := if truthy d.potential_company_name then score + 1 / 10 else score
  min score 1

/-- Confidence of `_scrape_with_requests_fallback`: the headless formula
scaled by `0.8`. -/
def requests_fallback_confidence (d : PlaywrightData) : ℚ :=
  calculate_playwright_confidence d * (4 / 5)

/-! ## Lead scoring

`backend/core/domain/services/scoring.py`. -/

/-- `ScoringCriteria` dataclass. -/
structure ScoringCriteria where
  name : String
  weight : ℚ
  threshold : ℚ
  max_score : ℚ
  description : String
deriving DecidableEq

/-- `LeadScoringService.default_criteria`. -/
def default_criteria : List ScoringCriteria :=
  [⟨"industry_match", 1 / 4, 1 / 2, 25, "Matches preferred industry"⟩,
   ⟨"company_size", 1 / 5, 1 / 2, 20, "Company size within preferred range"⟩,
   ⟨"email_quality", 3 / 20, 3 / 5, 15, "Email confidence score"⟩,
   ⟨"scrape_quality", 3 / 20, 3 / 5, 15, "Scraping confidence score"⟩,
   ⟨"enrichment_quality", 3 / 20, 3 / 5, 15, "Enrichment confidence score"⟩,
   ⟨"linkedin_presence", 1 / 10, 1 / 2, 10, "Has LinkedIn profile"⟩]

/-- Preferred industries of `_evaluate_industry_match`. -/
def preferred_industries : List String :=
  ["Software", "SaaS", "Technology", "Fintech", "Healthcare", "E-commerce",
   "AI", "Data"]

/-- `LeadScoringService._evaluate_industry_match`. -/
def evaluate_industry_match (lead : Lead) (c : ScoringCriteria) : ℚ :=
  match lead.industry with
  | some i => if preferred_industries.contains i then c.max_score else 0
  | none => 0

/-- Preferred sizes of `_evaluate_company_size`. -/
def preferred_sizes : List String := ["11-50", "51-200", "201-500"]

/-- `LeadScoringService._evaluate_company_size`. -/
def evaluate_company_size (lead : Lead) (c : ScoringCriteria) : ℚ :=
  match lead.employees with
  | some e => if preferred_sizes.contains e then c.max_score else 0
  | none => 0

/-- `LeadScoringService._evaluate_email_quality`. -/
def evaluate_email_quality (lead : Lead) (c : ScoringCriteria) : ℚ :=
  if c.threshold ≤ lead.email_confidence then
    c.max_score * (lead.email_confidence / 1)
  else 0

/-- `LeadScoringService._evaluate_scrape_quality`. -/
def evaluate_scrape_quality (lead : Lead) (c : ScoringCriteria) : ℚ :=
  if c.threshold ≤ lead.scrape_confidence then
    c.max_score * (lead.scrape_confidence / 1)
  else 0

/-- `LeadScoringService._evaluate_enrichment_quality`. -/
def evaluate_enrichment_quality (lead : Lead) (c : ScoringCriteria) : ℚ :=
  if c.threshold ≤ lead.enrichment_confidence then
    c.max_score * (lead.enrichment_confidence / 1)
  else 0

/-- `LeadScoringService._evaluate_linkedin_presence` (`lead.linkedin_url`
is a truthiness test). -/
def evaluate_linkedin_presence (lead : Lead) (c : ScoringCriteria) : ℚ :=
  if truthy lead.linkedin_url then c.max_score else 0

/-- `LeadScoringService._evaluate_criterion`: dispatch on the criterion
name, unknown names scoring `0`. -/
def evaluate_criterion (lead : Lead) (c : ScoringCriteria) : ℚ :=
  if c.name = "industry_match" then evaluate_industry_match lead c
  else if c.name = "company_size" then evaluate_company_size lead c
  else if c.name = "email_quality" then evaluate_email_quality lead c
  else if c.name = "scrape_quality" then evaluate_scrape_quality lead c
  else if c.name = "enrichment_quality" then evaluate_enrichment_quality lead c
  else if c.name = "linkedin_presence" then evaluate_linkedin_presence lead c
  else 0

/-- `LeadScoringService._classify_lead`. -/
def classify_lead (score : ℚ) : String :=
  if 80 ≤ score then "Hot Lead"
  else if 60 ≤ score then "Warm Lead"
  else if 40 ≤ score then "Cold Lead"
  else "Disqualified"

/-- `ScoreResult` dataclass (the redundant `breakdown` map is omitted). -/
structure ScoreResult where
  total_score : ℚ
  criteria_scores : List (String × ℚ)
  qualification_label : String
deriving DecidableEq

/-- `LeadScoringService.score_lead`: Python `custom_criteria or
self.default_criteria` falls back to the defaults for both `None` and an
empty list; the raw sum is clamped by `min(total, 100)`. -/
def score_lead (lead : Lead) (custom_criteria : Option (List ScoringCriteria)) :
    ScoreResult :=
  let criteria :=
    match custom_criteria with
    | some cs => if cs.isEmpty then default_criteria else cs
    | none => default_criteria
  let criteria_scores := criteria.map (fun c => (c.name, evaluate_criterion lead c))
  let total_score := criteria.foldl (fun t c => t + evaluate_criterion lead c) 0
  let normalized_score := min total_score 100
  { total_score := normalized_score,
    criteria_scores := criteria_scores,
    qualification_label := classify_lead normalized_score }

/-! ## Messenger templates

`backend/core/infrastructure/messaging/messenger.py`, template path. -/

/-- Python `str(...)` of an optional string (`None` renders as `"None"`),
used by the f-string of the fallback industry template. -/
def pyStrOpt : Option String → String
  | some s => s
  | none => "None"

/-- The `software` entry of the template dict in `_get_industry_template`. -/
def software_template (sender_org contact_ref company_ref : String) : String :=
  "Hi " ++ contact_ref ++ ",\n\nI came across " ++ company_ref ++
  " in the software space and was impressed by your work. At " ++ sender_org ++
  ", we help software companies optimize their operations and growth. I" ++
  apoS ++ "d love to explore how we might add value to " ++ company_ref ++
  apoS ++ "s journey.\n\nBest regards,\n" ++ sender_org

/-- The `consulting` entry of the template dict. -/
def consulting_template (sender_org contact_ref company_ref : String) : String :=
  "Hi " ++ contact_ref ++ ",\n\nI noticed " ++ company_ref ++
  " in the consulting field and thought there might be synergies with our work at " ++
  sender_org ++
  ". We specialize in helping consulting firms enhance their client value proposition. Would you be open to a brief conversation?\n\nBest regards,\n" ++
  sender_org

/-- The `ecommerce` entry of the template dict. -/
def ecommerce_template (sender_org contact_ref company_ref : String) : String :=
  "Hi " ++ contact_ref ++ ",\n\nI discovered " ++ company_ref ++
  " in the e-commerce space and was intrigued by your approach. " ++ sender_org ++
  " works with e-commerce businesses to streamline their operations and drive growth. I" ++
  apoS ++
  "d be keen to learn more about your current challenges and see if there" ++
  apoS ++ "s alignment with our expertise.\n\nBest regards,\n" ++ sender_org

/-- The default template returned by `_get_industry_template` when the
industry key is not in the dict. -/
def industry_default_template (sender_org contact_ref company_ref industry : String) :
    String :=
  "Hi " ++ contact_ref ++ ",\n\nI came across " ++ company_ref ++ " in the " ++
  industry ++
  " space and thought there could be value in a brief conversation. We at " ++
  sender_org ++
  " work with companies like yours to explore growth and efficiency opportunities.\n\nBest regards,\n" ++
  sender_org

/-- `Messenger._get_industry_template`: the industry key is the lowercased
industry with spaces removed; the recognized keys are `software`,
`consulting` and `ecommerce`. -/
def get_industry_template (sender_org : String) (lead : Lead) : String :=
  let contact_ref := orStr lead.contact_name "the team"
  let company_ref := orStr lead.company_name "your company"
  let industry_key := pyReplace (pyLower (orStr lead.industry "")) " " ""
  if industry_key = "software" then
    software_template sender_org contact_ref company_ref
  else if industry_key = "consulting" then
    consulting_template sender_org contact_ref company_ref
  else if industry_key = "ecommerce" then
    ecommerce_template sender_org contact_ref company_ref
  else
    industry_default_template sender_org contact_ref company_ref
      (pyStrOpt lead.industry)

/-- `Messenger._get_generic_template`. -/
def get_generic_template (sender_org : String) (lead : Lead) : String :=
  let contact_ref := orStr lead.contact_name "the team"
  let company_ref := orStr lead.company_name "your company"
  "Hi " ++ contact_ref ++ ",\n\nI discovered " ++ company_ref ++
  " and was interested in what you" ++ apoS ++ "re building. At " ++ sender_org ++
  ", we work with innovative companies to help them achieve their growth objectives. I" ++
  apoS ++
  "d love to learn more about your current initiatives and see if there" ++
  apoS ++ "s potential for collaboration.\n\nBest regards,\n" ++ sender_org

/-- `Messenger._get_website_only_template`. -/
def get_website_only_template (sender_org : String) (lead : Lead) : String :=
  let website := if lead.website.isEmpty then "your website" else lead.website
  let company_ref := orStr lead.company_name "your company"
  "Hi team,\n\nI visited " ++ website ++ " and was impressed by " ++
  company_ref ++ apoS ++ "s work. At " ++ sender_org ++
  ", we help companies like yours navigate growth challenges and operational efficiencies. I" ++
  apoS ++
  "d be interested in exploring potential synergies.\n\nBest regards,\n" ++
  sender_org

/-- `Messenger._generate_template_message`: template choice by available
fields (`company_name` and `industry` are truthiness tests). -/
def generate_template_message (sender_org : String) (lead : Lead) : String :=
  if truthy lead.company_name && truthy lead.industry then
    get_industry_template sender_org lead
  else if truthy lead.company_name then
    get_generic_template sender_org lead
  else
    get_website_only_template sender_org lead

/-! ## Subscription service and the bulk lead-creation endpoint

`backend/core/infrastructure/billing/subscription_service.py` and
`backend/api/endpoints/leads.py`. The plan configuration read from
environment variables and the database counts enter as parameters. -/

/-- `PlanUsage` schema. -/
structure PlanUsage where
  plan_name : String
  max_leads_per_day : Nat
  can_export : Bool
  can_use_ai : Bool
  current_usage : Nat
  remaining_daily_leads : Nat
  can_process_more_today : Bool
deriving DecidableEq

/-- `SubscriptionService.get_organization_usage`: given the plan name, the
configured daily cap and the count of leads created today, compute
`remaining = max(0, cap - current)` (truncated subtraction on naturals)
and `can_process_more_today = remaining > 0`. -/
def get_organization_usage (plan_name : String)
    (max_leads_per_day current_usage : Nat) (can_export can_use_ai : Bool) :
    PlanUsage :=
  let remaining_daily_leads := max_leads_per_day - current_usage
  { plan_name := plan_name, max_leads_per_day := max_leads_per_day,
    can_export := can_export, can_use_ai := can_use_ai,
    current_usage := current_usage,
    remaining_daily_leads := remaining_daily_leads,
    can_process_more_today := decide (0 < remaining_daily_leads) }

/-- `SubscriptionService.can_create_lead`. -/
def can_create_lead (usage : PlanUsage) : Bool :=
  usage.can_process_more_today

/-- Outcome of a FastAPI handler: a value, or a raised `HTTPException`
with a status code and detail string. -/
inductive ApiResult (α : Type) where
  | ok (value : α)
  | httpError (status_code : Nat) (detail : String)
deriving DecidableEq

/-- `create_leads_from_urls` (`POST /leads/`): empty list is a 400; an
exhausted quota is a 429; a batch larger than the remaining allowance is a
429 with a counted detail message; otherwise one lead per URL is created
and a background processing job is enqueued per created lead. On every
error path the returned `httpError` carries no created leads and no
enqueued jobs. -/
def create_leads_from_urls (urls : List String) (usage : PlanUsage)
    (organization_id owner_id : Nat) : ApiResult (List Lead × List Lead) :=
  if urls.isEmpty then .httpError 400 "No URLs provided"
  else if !(can_create_lead usage) then
    .httpError 429 "Daily lead limit exceeded for your subscription plan"
  else if usage.remaining_daily_leads < urls.length then
    .httpError 429 ("Cannot create " ++ toString urls.length ++
      " leads. Only " ++ toString usage.remaining_daily_leads ++
      " leads remaining for today.")
  else
    let created_leads := urls.map (fun u => new_lead u organization_id owner_id)
    .ok (created_leads, created_leads)

/-! ## Auth: token verification and the refresh endpoint

`backend/core/infrastructure/auth/security.py` and
`backend/api/endpoints/auth.py`. The JWT decode is an oracle: `none`
models any `jwt.PyJWTError` (bad signature, expired token), `some payload`
a successfully decoded claims dictionary. -/

/-- Decoded JWT claims as read by `verify_token`: the `sub` claim (absent
modelled as `none`) and the `type` claim (`typ` here, since `type` is a
reserved word). -/
structure TokenPayload where
  sub : Option String
  typ : String
deriving DecidableEq

/-- Return value of a successful `verify_token`. -/
structure VerifiedToken where
  user_id : String
  token_type : String
deriving DecidableEq

/-- `verify_token`: 401 on a decode error, a missing `sub`, or a `type`
claim different from `"access"`. -/
def verify_token (decoded : Option TokenPayload) : ApiResult VerifiedToken :=
  match decoded with
  | none => .httpError 401 "Invalid token"
  | some payload =>
    match payload.sub with
    | none => .httpError 401 "Invalid token"
    | some uid =>
      if payload.typ ≠ "access" then .httpError 401 "Invalid token"
      else .ok { user_id := uid, token_type := payload.typ }

/-- A user row as read by the refresh endpoint. -/
structure UserRow where
  id : String
  is_active : Bool
deriving DecidableEq

/-- Response of `POST /refresh`: a freshly minted access token for the
given subject, or an HTTP error. -/
inductive RefreshResponse where
  | newAccessToken (sub : String)
  | httpError (status_code : Nat) (detail : String)
deriving DecidableEq

/-- `refresh_token` endpoint: the body calls `verify_token` (which only
accepts `type = "access"`), then requires `token_type == "refresh"`, then
looks up an active user and mints a new access token. The whole body sits
in a `try`/`except Exception` that converts every raised `HTTPException`
into a 401 with detail `"Invalid refresh token"`. -/
def refresh_token_endpoint (decoded : Option TokenPayload)
    (get_user : String → Option UserRow) : RefreshResponse :=
  match verify_token decoded with
  | .httpError _ _ => .httpError 401 "Invalid refresh token"
  | .ok token_data =>
    if token_data.token_type ≠ "refresh" then
      .httpError 401 "Invalid refresh token"
    else
      match get_user token_data.user_id with
      | none => .httpError 401 "Invalid refresh token"
      | some user =>
        if !user.is_active then .httpError 401 "Invalid refresh token"
        else .newAccessToken user.id

/-! ## Concrete scenario inputs used by the spec -/

/-- Scraped text of the enrichment-waterfall scenario. -/
def c3text : String := "We are a 120-person SaaS platform founded in 2014"

/-- The lead of the enrichment-waterfall scenario: a fresh row with only a
website. -/
def c3lead : Lead := new_lead "https://example.com" 1 1

/-- Scraper output of the enrichment-waterfall scenario. -/
def c3scraped : ScrapedData := { text_content := some c3text }

/-- What the heuristic strategy actually computes on the scenario text:
industry and founded year only, confidence `0.3 + 0.15 = 0.45`. -/
def c3result : EnrichmentResult :=
  { success := true,
    data := { industry := some "Software", founded_year := some 2014 },
    method := .heuristic,
    confidence := 9 / 20 }

/-- Key set of the flattened JSON-LD `Organization` block of the
scrape-tiering scenario (name, description, url and a plain-text
address). -/
def orgKeys : List String :=
  ["@context", "@type", "name", "description", "url", "address"]

/-- Lowercased `str(data)` rendering of the same block, as searched by the
business-property loop. -/
def orgReprLower : String :=
  "\x7b" ++ "@context: https://schema.org, @type: organization, " ++
  "name: acme gmbh, description: industrial tooling, " ++
  "url: https://acme.example, address: 1 main street springfield" ++ "\x7d"

/-- The lead of the messenger data-lock scenario: only a website. -/
def acmeLead : Lead := new_lead "https://acme.io" 1 1

/-- A lead with a company name and a recognized industry, used to witness
the industry-keyed template selection. -/
def acmeSoftwareLead : Lead :=
  { acmeLead with company_name := some "Acme", industry := some "Software" }

/-! ## Helper lemmas -/

set_option maxRecDepth 40000

/-- Evaluation of the heuristic strategy on the enrichment-waterfall
scenario input. -/
theorem c3_heuristic_eval :
    heuristic_enrichment c3lead c3scraped = some c3result := by
  have h0 : get_text_for_analysis c3lead c3scraped = c3text := by decide
  have h1 : infer_industry (pyLower c3text) = some "Software" := by decide
  have h2 : estimate_employees (pyLower c3text) = none := by decide
  have h3 : extract_contact_person c3text = none := by decide
  have h4 : extract_contact_title c3text = none := by decide
  have h5 : extract_founded_year c3text = some 2014 := by decide
  simp only [heuristic_enrichment, h0, h1, h2, h3, h4, h5]
  norm_num [EnrichedData.isEmptyDict, c3result]

/-- A year accepted by the capture filter lies in the claimed range. -/
theorem yearFromCapture_range (c : List Char) (y : Nat)
    (h : yearFromCapture c = some y) : 1900 ≤ y ∧ y ≤ 2030 := by
  simp only [yearFromCapture] at h
  split_ifs at h <;> simp_all

/-- Range propagation through the pattern list of
`extract_founded_year`. -/
theorem founded_patterns_range
    (pats : List (List Char → Option (List Char))) (cs : List Char) (y : Nat)
    (h : pats.findSome? (fun p => (scanFirst p cs).bind yearFromCapture) = some y) :
    1900 ≤ y ∧ y ≤ 2030 := by
  induction pats with
  | nil => simp [List.findSome?] at h
  | cons p ps ih =>
    rw [List.findSome?] at h
    cases hp : (scanFirst p cs).bind yearFromCapture with
    | none => rw [hp] at h; exact ih h
    | some v =>
      rw [hp] at h
      rcases Option.bind_eq_some.mp hp with ⟨c, _, hc⟩
      exact (Option.some.injEq _ _).mp h ▸ yearFromCapture_range c v hc

/-! ## Claim theorems -/

/-- C3, counterexample: on the scraped text `"We are a 120-person SaaS
platform founded in 2014"` the heuristic strategy does not extract an
employee band (so no revenue band either) and its confidence is `0.45`,
not greater than `0.7`, contradicting the claim. -/
theorem C3_counterexample :
    heuristic_enrichment c3lead c3scraped = some c3result ∧
    c3result.data.employees = none ∧
    c3result.data.revenue_band = none ∧
    ¬ c3result.confidence > 7 / 10 := by
  refine ⟨c3_heuristic_eval, rfl, rfl, ?_⟩
  norm_num [c3result]

/-- C3, amended: on the scenario text the heuristic strategy returns only
industry `"Software"` and founded year `2014` with confidence `0.45`
(the hyphenated `120-person` matches no employee pattern, which expects
whitespace as in `120 person team`), so the heuristic gate fails and,
with no external API and no LLM credential, `enrich_lead_data` returns
`None`. -/
theorem C3_amended_theorem :
    heuristic_enrichment c3lead c3scraped = some c3result ∧
    c3result.data.industry = some "Software" ∧
    c3result.data.founded_year = some 2014 ∧
    c3result.confidence = 9 / 20 ∧
    enrich_lead_data c3lead c3scraped none = none := by
  refine ⟨c3_heuristic_eval, rfl, rfl, rfl, ?_⟩
  have hlt : ¬ c3result.confidence > 7 / 10 := by norm_num [c3result]
  simp [enrich_lead_data, c3_heuristic_eval, hlt, external_api_enrichment]

/-- C4: a two-digit year after a founding keyword is always expanded with
a `20` prefix (the `NN < 50` branch of the source is dead code), so
`'50` becomes `2050`, is rejected by the `[1900, 2030]` filter, and the
extraction returns `None` instead of the claimed `1950`; `'49` becomes
`2049`, which the same filter also rejects, so it returns `None` rather
than `2049`. The range part of the claim holds: every returned year lies
in `[1900, 2030]`. -/
theorem C4_theorem :
    extract_founded_year ("founded in " ++ apoS ++ "50") = none ∧
    extract_founded_year ("founded in " ++ apoS ++ "49") = none ∧
    ∀ (text : String) (y : Nat),
      extract_founded_year text = some y → 1900 ≤ y ∧ y ≤ 2030 := by
  refine ⟨by decide, by decide, ?_⟩
  intro text y h
  simp only [extract_founded_year] at h
  exact founded_patterns_range _ _ _ h

/-- C4, witness: the range bound applied to a concrete extraction. -/
theorem C4_witness :
    extract_founded_year "founded in 2014" = some 2014 ∧
    1900 ≤ 2014 ∧ 2014 ≤ 2030 :=
  ⟨by decide, C4_theorem.2.2 "founded in 2014" 2014 (by decide)⟩

/-- C2: the enrichment waterfall returns the heuristic result exactly
when its confidence exceeds `0.7`; otherwise, since the external-API
strategy is a stub returning `None` (so its `> 0.6` gate can never
accept), the result is whatever the LLM strategy yields, `None`
included; and merging a `None` result leaves the lead untouched, so a
fresh lead keeps `enrichment_confidence = 0`. -/
theorem C2_theorem :
    ∀ (lead : Lead) (scraped : ScrapedData) (llm_result : Option EnrichmentResult),
    external_api_enrichment lead scraped = none ∧
    (∀ h, heuristic_enrichment lead scraped = some h → h.confidence > 7 / 10 →
      enrich_lead_data lead scraped llm_result = some h) ∧
    ((∀ h, heuristic_enrichment lead scraped = some h → ¬ h.confidence > 7 / 10) →
      enrich_lead_data lead scraped llm_result = llm_result) ∧
    (∀ (w : String) (org own : Nat),
      merge_enrichment (new_lead w org own) none = new_lead w org own ∧
      (new_lead w org own).enrichment_confidence = 0) := by
  intro lead scraped llm_result
  refine ⟨rfl, ?_, ?_, fun w org own => ⟨rfl, rfl⟩⟩
  · intro h hh hc
    simp [enrich_lead_data, hh, hc]
  · intro hall
    simp only [enrich_lead_data]
    cases hh : heuristic_enrichment lead scraped with
    | none =>
      simp [external_api_enrichment]
      cases llm_result <;> rfl
    | some h =>
      simp [hall h hh, external_api_enrichment]
      cases llm_result <;> rfl

/-- C2, witness: on a fresh lead with empty scraper output every strategy
yields nothing and the waterfall returns `None`, leaving the enrichment
confidence at `0`. -/
theorem C2_witness :
    enrich_lead_data (new_lead "https://example.com" 1 1) {} none = none ∧
    merge_enrichment (new_lead "https://example.com" 1 1) none =
      new_lead "https://example.com" 1 1 ∧
    (new_lead "https://example.com" 1 1).enrichment_confidence = 0 := by
  have hnone : heuristic_enrichment (new_lead "https://example.com" 1 1) {} = none := by
    decide
  refine ⟨?_, ?_, ?_⟩
  · refine (C2_theorem (new_lead "https://example.com" 1 1) {} none).2.2.1 ?_
    intro h hh
    rw [hnone] at hh
    cases hh
  · exact ((C2_theorem (new_lead "https://example.com" 1 1) {} none).2.2.2
      "https://example.com" 1 1).1
  · exact ((C2_theorem (new_lead "https://example.com" 1 1) {} none).2.2.2
      "https://example.com" 1 1).2

/-- C9: the refresh endpoint can never mint a token: `verify_token`
rejects every token whose `type` claim is not `"access"`, and a token
that passes it then fails the `token_type == "refresh"` check, so `POST
/refresh` answers 401 `"Invalid refresh token"` for every decoded
payload and every user table — including a valid, unexpired refresh
token, for which the claim promises a new access token. -/
theorem C9_theorem :
    ∀ (decoded : Option TokenPayload) (get_user : String → Option UserRow),
    refresh_token_endpoint decoded get_user =
      .httpError 401 "Invalid refresh token" := by
  intro decoded get_user
  rcases decoded with _ | payload
  · rfl
  · rcases hs : payload.sub with _ | uid
    · simp [refresh_token_endpoint, verify_token, hs]
    · by_cases ht : payload.typ = "access"
      · simp [refresh_token_endpoint, verify_token, hs, ht]
      · simp [refresh_token_endpoint, verify_token, hs, ht]

/-- Evaluation of `score_lead` with the default criteria as an explicit
six-term clamped sum. -/
theorem score_default_eval (lead : Lead) :
    (score_lead lead none).total_score =
      min (evaluate_industry_match lead ⟨"industry_match", 1 / 4, 1 / 2, 25, "Matches preferred industry"⟩ +
        evaluate_company_size lead ⟨"company_size", 1 / 5, 1 / 2, 20, "Company size within preferred range"⟩ +
        evaluate_email_quality lead ⟨"email_quality", 3 / 20, 3 / 5, 15, "Email confidence score"⟩ +
        evaluate_scrape_quality lead ⟨"scrape_quality", 3 / 20, 3 / 5, 15, "Scraping confidence score"⟩ +
        evaluate_enrichment_quality lead ⟨"enrichment_quality", 3 / 20, 3 / 5, 15, "Enrichment confidence score"⟩ +
        evaluate_linkedin_presence lead ⟨"linkedin_presence", 1 / 10, 1 / 2, 10, "Has LinkedIn profile"⟩) 100 := by
  simp [score_lead, default_criteria, evaluate_criterion, zero_add]

/-- Monotonicity of a threshold-gated confidence criterion. -/
theorem conf_step_mono (m th c₁ c₂ : ℚ) (hm : 0 ≤ m) (hth : 0 ≤ th)
    (h : c₁ ≤ c₂) :
    (if th ≤ c₁ then m * (c₁ / 1) else 0) ≤
      (if th ≤ c₂ then m * (c₂ / 1) else 0) := by
  split_ifs with h1 h2 h2
  · simp only [div_one]
    exact mul_le_mul_of_nonneg_left h hm
  · exact absurd (le_trans h1 h) h2
  · have hc : 0 ≤ c₂ := le_trans hth h2
    simp only [div_one]
    positivity
  · exact le_rfl

/-- Nonnegativity of a threshold-gated confidence criterion. -/
theorem conf_step_nonneg (m th c : ℚ) (hm : 0 ≤ m) (hth : 0 ≤ th) :
    0 ≤ if th ≤ c then m * (c / 1) else 0 := by
  split_ifs with h1
  · have hc : 0 ≤ c := le_trans hth h1
    simp only [div_one]
    positivity
  · exact le_rfl

/-- Band characterisation of `_classify_lead`. -/
theorem classify_lead_spec (s : ℚ) :
    (classify_lead s = "Hot Lead" ↔ 80 ≤ s) ∧
    (classify_lead s = "Warm Lead" ↔ 60 ≤ s ∧ s < 80) ∧
    (classify_lead s = "Cold Lead" ↔ 40 ≤ s ∧ s < 60) ∧
    (classify_lead s = "Disqualified" ↔ s < 40) := by
  unfold classify_lead
  split_ifs with h1 h2 h3 <;>
    refine ⟨⟨fun hh => ?_, fun hh => ?_⟩, ⟨fun hh => ?_, fun hh => ?_⟩,
      ⟨fun hh => ?_, fun hh => ?_⟩, ⟨fun hh => ?_, fun hh => ?_⟩⟩ <;>
    first
      | rfl
      | linarith
      | (exact absurd hh (by decide))
      | (exact ⟨by linarith, by linarith⟩)

/-- C5: with the default criteria, every total score lies in `[0, 100]`,
and the total score is monotone non-decreasing in each of the three
confidence inputs with all other lead fields held fixed. -/
theorem C5_theorem :
    ∀ lead : Lead,
    (0 ≤ (score_lead lead none).total_score ∧
      (score_lead lead none).total_score ≤ 100) ∧
    (∀ c₁ c₂ : ℚ, c₁ ≤ c₂ →
      (score_lead { lead with email_confidence := c₁ } none).total_score ≤
        (score_lead { lead with email_confidence := c₂ } none).total_score ∧
      (score_lead { lead with scrape_confidence := c₁ } none).total_score ≤
        (score_lead { lead with scrape_confidence := c₂ } none).total_score ∧
      (score_lead { lead with enrichment_confidence := c₁ } none).total_score ≤
        (score_lead { lead with enrichment_confidence := c₂ } none).total_score) := by
  intro lead
  constructor
  · rw [score_default_eval]
    constructor
    · refine le_min ?_ (by norm_num)
      have n1 : 0 ≤ evaluate_industry_match lead
          ⟨"industry_match", 1 / 4, 1 / 2, 25, "Matches preferred industry"⟩ := by
        unfold evaluate_industry_match
        cases lead.industry <;> simp <;> split <;> norm_num
      have n2 : 0 ≤ evaluate_company_size lead
          ⟨"company_size", 1 / 5, 1 / 2, 20, "Company size within preferred range"⟩ := by
        unfold evaluate_company_size
        cases lead.employees <;> simp <;> split <;> norm_num
      have n3 : 0 ≤ evaluate_email_quality lead
          ⟨"email_quality", 3 / 20, 3 / 5, 15, "Email confidence score"⟩ :=
        conf_step_nonneg 15 (3 / 5) _ (by norm_num) (by norm_num)
      have n4 : 0 ≤ evaluate_scrape_quality lead
          ⟨"scrape_quality", 3 / 20, 3 / 5, 15, "Scraping confidence score"⟩ :=
        conf_step_nonneg 15 (3 / 5) _ (by norm_num) (by norm_num)
      have n5 : 0 ≤ evaluate_enrichment_quality lead
          ⟨"enrichment_quality", 3 / 20, 3 / 5, 15, "Enrichment confidence score"⟩ :=
        conf_step_nonneg 15 (3 / 5) _ (by norm_num) (by norm_num)
      have n6 : 0 ≤ evaluate_linkedin_presence lead
          ⟨"linkedin_presence", 1 / 10, 1 / 2, 10, "Has LinkedIn profile"⟩ := by
        unfold evaluate_linkedin_presence
        split <;> norm_num
      linarith
    · exact min_le_right _ _
  · intro c₁ c₂ hc
    refine ⟨?_, ?_, ?_⟩ <;>
      · rw [score_default_eval, score_default_eval]
        refine min_le_min ?_ le_rfl
        simp only [evaluate_industry_match, evaluate_company_size,
          evaluate_email_quality, evaluate_scrape_quality,
          evaluate_enrichment_quality, evaluate_linkedin_presence]
        gcongr ?_ + ?_ + ?_ + ?_ + ?_ + ?_ <;>
          first
            | exact le_rfl
            | exact conf_step_mono 15 (3 / 5) c₁ c₂ (by norm_num) (by norm_num) hc

/-- C5, witness: the bounds and monotonicity instantiated on a fresh lead
with confidences `0 ≤ 1`. -/
theorem C5_witness :
    ((0 : ℚ) ≤ 1) ∧
    (0 ≤ (score_lead (new_lead "https://example.com" 1 1) none).total_score ∧
      (score_lead (new_lead "https://example.com" 1 1) none).total_score ≤ 100) ∧
    ((score_lead { new_lead "https://example.com" 1 1 with email_confidence := 0 } none).total_score ≤
      (score_lead { new_lead "https://example.com" 1 1 with email_confidence := 1 } none).total_score ∧
    (score_lead { new_lead "https://example.com" 1 1 with scrape_confidence := 0 } none).total_score ≤
      (score_lead { new_lead "https://example.com" 1 1 with scrape_confidence := 1 } none).total_score ∧
    (score_lead { new_lead "https://example.com" 1 1 with enrichment_confidence := 0 } none).total_score ≤
      (score_lead { new_lead "https://example.com" 1 1 with enrichment_confidence := 1 } none).total_score) :=
  ⟨by norm_num,
   (C5_theorem (new_lead "https://example.com" 1 1)).1,
   (C5_theorem (new_lead "https://example.com" 1 1)).2 0 1 (by norm_num)⟩

/-- C6: the total score is `min(100, Σ criterion scores)` over the default
criteria, and the qualification label is assigned exactly by the bands
`≥ 80` Hot, `[60, 80)` Warm, `[40, 60)` Cold, `< 40` Disqualified. -/
theorem C6_theorem :
    ∀ lead : Lead,
    (score_lead lead none).total_score =
      min 100 ((default_criteria.map (evaluate_criterion lead)).sum) ∧
    ((score_lead lead none).qualification_label = "Hot Lead" ↔
      80 ≤ (score_lead lead none).total_score) ∧
    ((score_lead lead none).qualification_label = "Warm Lead" ↔
      60 ≤ (score_lead lead none).total_score ∧
        (score_lead lead none).total_score < 80) ∧
    ((score_lead lead none).qualification_label = "Cold Lead" ↔
      40 ≤ (score_lead lead none).total_score ∧
        (score_lead lead none).total_score < 60) ∧
    ((score_lead lead none).qualification_label = "Disqualified" ↔
      (score_lead lead none).total_score < 40) := by
  intro lead
  constructor
  · simp only [score_lead, default_criteria, List.foldl, List.map,
      List.sum_cons, List.sum_nil]
    rw [min_comm]
    congr 1
    ring
  · have hlab : (score_lead lead none).qualification_label =
        classify_lead (score_lead lead none).total_score := by
      simp [score_lead]
    rw [hlab]
    exact classify_lead_spec (score_lead lead none).total_score

/-- Confidence of the scenario JSON-LD `Organization` block: name `0.3`,
description `0.2`, url `0.1`, address `0.2`, no other contribution. -/
theorem org_conf_eval :
    calculate_json_ld_confidence orgKeys orgReprLower = 4 / 5 := by
  have k1 : (orgKeys.contains "name" || orgKeys.contains "legalName") = true := by decide
  have k2 : orgKeys.contains "description" = true := by decide
  have k3 : orgKeys.contains "url" = true := by decide
  have k4 : (orgKeys.contains "email" || orgKeys.contains "telephone") = false := by decide
  have k5 : orgKeys.contains "address" = true := by decide
  have k6 : orgKeys.contains "foundingDate" = false := by decide
  have p1 : pyIn "employeeCount" orgReprLower = false := by decide
  have p2 : pyIn "revenue" orgReprLower = false := by decide
  have p3 : pyIn "founded" orgReprLower = false := by decide
  have p4 : pyIn "industry" orgReprLower = false := by decide
  have p5 : pyIn "contactPoint" orgReprLower = false := by decide
  have p6 : pyIn "location" orgReprLower = false := by decide
  have p7 : pyIn "logo" orgReprLower = false := by decide
  simp only [calculate_json_ld_confidence, business_properties, List.foldl_cons,
    List.foldl_nil, k1, k2, k3, k4, k5, k6, p1, p2, p3, p4, p5, p6, p7]
  norm_num [min_def]

/-- C1: the scraper returns the JSON-LD tier exactly when it succeeds
above confidence `0.7`, else the meta tier when it succeeds above `0.5`,
else the tier-3 result (headless browser or its plain-request fallback),
and the executed-tier trace shows that later tiers are not run once a
gate is met; on the scenario JSON-LD `Organization` block the first tier
has confidence `0.8 ≥ 0.7` and is returned alone. -/
theorem C1_theorem :
    ∀ t1 t2 t3 : ScrapingResult,
    (t1.success = true → t1.confidence > 7 / 10 →
      scrape t1 t2 t3 = (t1, [.json_ld])) ∧
    (¬(t1.success = true ∧ t1.confidence > 7 / 10) →
      t2.success = true → t2.confidence > 1 / 2 →
      scrape t1 t2 t3 = (t2, [.json_ld, .structured_data])) ∧
    (¬(t1.success = true ∧ t1.confidence > 7 / 10) →
      ¬(t2.success = true ∧ t2.confidence > 1 / 2) →
      scrape t1 t2 t3 = (t3, [.json_ld, .structured_data, .playwright])) ∧
    ((7 : ℚ) / 10 ≤ (json_ld_tier_result orgKeys orgReprLower).confidence ∧
      scrape (json_ld_tier_result orgKeys orgReprLower) t2 t3 =
        (json_ld_tier_result orgKeys orgReprLower, [.json_ld])) := by
  have hfirst : ∀ u1 u2 u3 : ScrapingResult, u1.success = true →
      u1.confidence > 7 / 10 → scrape u1 u2 u3 = (u1, [.json_ld]) := by
    intro u1 u2 u3 hs hc
    unfold scrape
    rw [if_pos (by rw [hs, Bool.true_and]; exact decide_eq_true hc :
      (u1.success && decide (u1.confidence > 7 / 10)) = true)]
  intro t1 t2 t3
  refine ⟨hfirst t1 t2 t3, ?_, ?_, ?_, ?_⟩
  · intro hn hs hc
    have hn1 : ¬ ((t1.success && decide (t1.confidence > 7 / 10)) = true) := by
      cases h1 : t1.success
      · simp
      · simp only [h1, Bool.true_and, decide_eq_true_eq]
        exact fun hcc => hn ⟨h1, hcc⟩
    unfold scrape
    rw [if_neg hn1, if_pos (by rw [hs, Bool.true_and]; exact decide_eq_true hc :
      (t2.success && decide (t2.confidence > 1 / 2)) = true)]
  · intro hn hm
    have hn1 : ¬ ((t1.success && decide (t1.confidence > 7 / 10)) = true) := by
      cases h1 : t1.success
      · simp
      · simp only [h1, Bool.true_and, decide_eq_true_eq]
        exact fun hcc => hn ⟨h1, hcc⟩
    have hn2 : ¬ ((t2.success && decide (t2.confidence > 1 / 2)) = true) := by
      cases h2 : t2.success
      · simp
      · simp only [h2, Bool.true_and, decide_eq_true_eq]
        exact fun hcc => hm ⟨h2, hcc⟩
    unfold scrape
    rw [if_neg hn1, if_neg hn2]
  · have hc : (json_ld_tier_result orgKeys orgReprLower).confidence = 4 / 5 :=
      org_conf_eval
    rw [hc]
    norm_num
  · have hc : (json_ld_tier_result orgKeys orgReprLower).confidence = 4 / 5 :=
      org_conf_eval
    exact hfirst _ t2 t3 rfl (by rw [hc]; norm_num)

/-- C1, witness: the first gate applied at a concrete successful JSON-LD
tier result. -/
theorem C1_witness :
    (⟨true, .json_ld, 4 / 5⟩ : ScrapingResult).success = true ∧
    (⟨true, .json_ld, 4 / 5⟩ : ScrapingResult).confidence > 7 / 10 ∧
    scrape ⟨true, .json_ld, 4 / 5⟩ ⟨false, .structured_data, 0⟩
        ⟨true, .playwright, 3 / 10⟩ =
      (⟨true, .json_ld, 4 / 5⟩, [.json_ld]) :=
  ⟨rfl, by norm_num,
   (C1_theorem ⟨true, .json_ld, 4 / 5⟩ ⟨false, .structured_data, 0⟩
      ⟨true, .playwright, 3 / 10⟩).1 rfl (by norm_num)⟩

/-- C7: the remaining daily allowance equals `max(0, cap − today)`; for a
nonempty URL batch an exhausted allowance yields a 429 with no created
lead and no enqueued job, and a batch larger than a positive remaining
allowance yields a 429 with the counted detail message and no created
lead (the `httpError` constructor carries neither leads nor jobs). -/
theorem C7_theorem :
    ∀ (urls : List String) (plan : String) (cap today : Nat)
      (ce cai : Bool) (org own : Nat),
    ((get_organization_usage plan cap today ce cai).remaining_daily_leads : ℤ) =
      max 0 ((cap : ℤ) - today) ∧
    (urls ≠ [] →
      (get_organization_usage plan cap today ce cai).remaining_daily_leads = 0 →
      create_leads_from_urls urls (get_organization_usage plan cap today ce cai)
          org own =
        .httpError 429 "Daily lead limit exceeded for your subscription plan") ∧
    (0 < (get_organization_usage plan cap today ce cai).remaining_daily_leads →
      (get_organization_usage plan cap today ce cai).remaining_daily_leads <
        urls.length →
      create_leads_from_urls urls (get_organization_usage plan cap today ce cai)
          org own =
        .httpError 429 ("Cannot create " ++ toString urls.length ++
          " leads. Only " ++
          toString (get_organization_usage plan cap today ce cai).remaining_daily_leads ++
          " leads remaining for today.")) := by
  intro urls plan cap today ce cai org own
  refine ⟨?_, ?_, ?_⟩
  · simp only [get_organization_usage]
    omega
  · intro hne h0
    unfold create_leads_from_urls
    rw [if_neg (by simpa [List.isEmpty_iff] using hne)]
    rw [if_pos]
    simp only [can_create_lead, get_organization_usage] at h0 ⊢
    simp [h0]
  · intro hpos hlen
    unfold create_leads_from_urls
    have hne : ¬ urls.isEmpty = true := by
      intro hE
      rw [List.isEmpty_iff.mp hE] at hlen
      simp at hlen
    rw [if_neg hne]
    rw [if_neg (by
      simp only [can_create_lead, get_organization_usage] at hpos ⊢
      simp [hpos])]
    rw [if_pos (by exact_mod_cast hlen)]

/-- C7, witness: a free-plan organization with 7 leads created today has
3 remaining, so a batch of 4 URLs is refused with the counted message. -/
theorem C7_witness :
    (get_organization_usage "free" 10 7 false false).remaining_daily_leads = 3 ∧
    create_leads_from_urls ["u1", "u2", "u3", "u4"]
        (get_organization_usage "free" 10 7 false false) 1 1 =
      .httpError 429 "Cannot create 4 leads. Only 3 leads remaining for today." :=
  ⟨rfl,
   (( C7_theorem ["u1", "u2", "u3", "u4"] "free" 10 7 false false 1 1).2.2
      (by decide) (by decide)).trans (by decide)⟩

/-- C8: template choice is driven by the available fields — industry-keyed
template with both `company_name` and `industry`, generic template with
only `company_name`, website-only template without it; within the
industry-keyed path the keys `software`, `consulting`, `ecommerce` are
recognized and anything else falls back to the generic-with-industry
text; and the website-only lead of the data-lock scenario produces the
website-only template which mentions the URL and no industry name and
greets a generic team instead of a contact. -/
theorem C8_theorem :
    ∀ (sender_org : String) (lead : Lead),
    (truthy lead.company_name = true → truthy lead.industry = true →
      generate_template_message sender_org lead =
        get_industry_template sender_org lead) ∧
    (truthy lead.company_name = true → truthy lead.industry = false →
      generate_template_message sender_org lead =
        get_generic_template sender_org lead) ∧
    (truthy lead.company_name = false →
      generate_template_message sender_org lead =
        get_website_only_template sender_org lead) ∧
    (pyReplace (pyLower (orStr lead.industry "")) " " "" = "software" →
      get_industry_template sender_org lead =
        software_template sender_org (orStr lead.contact_name "the team")
          (orStr lead.company_name "your company")) ∧
    (pyReplace (pyLower (orStr lead.industry "")) " " "" = "consulting" →
      get_industry_template sender_org lead =
        consulting_template sender_org (orStr lead.contact_name "the team")
          (orStr lead.company_name "your company")) ∧
    (pyReplace (pyLower (orStr lead.industry "")) " " "" = "ecommerce" →
      get_industry_template sender_org lead =
        ecommerce_template sender_org (orStr lead.contact_name "the team")
          (orStr lead.company_name "your company")) ∧
    (pyReplace (pyLower (orStr lead.industry "")) " " "" ≠ "software" →
      pyReplace (pyLower (orStr lead.industry "")) " " "" ≠ "consulting" →
      pyReplace (pyLower (orStr lead.industry "")) " " "" ≠ "ecommerce" →
      get_industry_template sender_org lead =
        industry_default_template sender_org (orStr lead.contact_name "the team")
          (orStr lead.company_name "your company") (pyStrOpt lead.industry)) ∧
    (generate_template_message "Our Company" acmeLead =
        get_website_only_template "Our Company" acmeLead ∧
      pyIn "https://acme.io" (generate_template_message "Our Company" acmeLead) = true ∧
      (industry_keywords.map Prod.fst).all
        (fun i => !(pyIn i (generate_template_message "Our Company" acmeLead))) = true ∧
      pyIn "Hi team," (generate_template_message "Our Company" acmeLead) = true ∧
      acmeLead.company_name = none ∧ acmeLead.industry = none ∧
      acmeLead.contact_name = none) := by
  intro sender_org lead
  refine ⟨?_, ?_, ?_, ?_, ?_, ?_, ?_, ?_⟩
  · intro h1 h2
    simp [generate_template_message, h1, h2]
  · intro h1 h2
    simp [generate_template_message, h1, h2]
  · intro h1
    simp [generate_template_message, h1]
  · intro hk
    simp [get_industry_template, hk]
  · intro hk
    simp [get_industry_template, hk]
  · intro hk
    simp [get_industry_template, hk]
  · intro hk1 hk2 hk3
    simp [get_industry_template, hk1, hk2, hk3]
  · refine ⟨by decide, by decide, by decide, by decide, rfl, rfl, rfl⟩

/-- C8, witness: the selection clauses applied to concrete leads. -/
theorem C8_witness :
    truthy acmeLead.company_name = false ∧
    generate_template_message "Our Company" acmeLead =
      get_website_only_template "Our Company" acmeLead ∧
    truthy acmeSoftwareLead.company_name = true ∧
    truthy acmeSoftwareLead.industry = true ∧
    generate_template_message "Our Company" acmeSoftwareLead =
      get_industry_template "Our Company" acmeSoftwareLead :=
  ⟨rfl,
   ( C8_theorem "Our Company" acmeLead).2.2.1 rfl,
   rfl, rfl,
   ( C8_theorem "Our Company" acmeSoftwareLead).1 rfl rfl⟩

/-- A conditional nonnegative bonus keeps a running score nonnegative. -/
theorem condAdd_foldl_nonneg (f : String → Bool) (inc : ℚ) (hinc : 0 ≤ inc) :
    ∀ (l : List String) (s : ℚ), 0 ≤ s →
      0 ≤ l.foldl (fun a p => if f p then a + inc else a) s := by
  intro l
  induction l with
  | nil => intro s hs; simpa using hs
  | cons p ps ih =>
    intro s hs
    rw [List.foldl_cons]
    apply ih
    split <;> linarith

/-- A Boolean-gated nonnegative bonus is nonnegative. -/
theorem ite_amount_nonneg (b : Bool) (q : ℚ) (hq : 0 ≤ q) :
    0 ≤ if b then q else 0 := by
  cases b <;> simp [hq]

/-- One conditional step of an additive confidence score stays
nonnegative. -/
theorem step_nonneg (p : Prop) [Decidable p] (s q : ℚ) (hs : 0 ≤ s)
    (hq : 0 ≤ q) : 0 ≤ if p then s + q else s := by
  split <;> linarith

/-- C10: each scraper confidence formula (JSON-LD, meta, headless, and
the plain-request fallback at `0.8` scale) yields a value in `[0, 1]`;
every heuristic enrichment confidence lies in `[0, 0.9]`; and the LLM
confidence formula lies in `[0, 0.8]`. -/
theorem C10_theorem :
    (∀ (keys : List String) (reprLower : String),
      0 ≤ calculate_json_ld_confidence keys reprLower ∧
        calculate_json_ld_confidence keys reprLower ≤ 1) ∧
    (∀ d : MetaData,
      0 ≤ calculate_meta_confidence d ∧ calculate_meta_confidence d ≤ 1) ∧
    (∀ d : PlaywrightData,
      0 ≤ calculate_playwright_confidence d ∧
        calculate_playwright_confidence d ≤ 1) ∧
    (∀ d : PlaywrightData,
      0 ≤ requests_fallback_confidence d ∧ requests_fallback_confidence d ≤ 1) ∧
    (∀ (lead : Lead) (scraped : ScrapedData) (r : EnrichmentResult),
      heuristic_enrichment lead scraped = some r →
        0 ≤ r.confidence ∧ r.confidence ≤ 9 / 10) ∧
    (∀ field_count : Nat,
      0 ≤ llm_confidence field_count ∧ llm_confidence field_count ≤ 4 / 5) := by
  have hpw : ∀ d : PlaywrightData,
      0 ≤ calculate_playwright_confidence d ∧
        calculate_playwright_confidence d ≤ 1 := by
    intro d
    simp only [calculate_playwright_confidence]
    constructor
    · refine le_min ?_ (by norm_num)
      exact step_nonneg _ _ _ (step_nonneg _ _ _ (step_nonneg _ _ _
        (step_nonneg _ _ _ (step_nonneg _ _ _ (step_nonneg _ _ _
          (by norm_num) (by norm_num)) (by norm_num)) (by norm_num))
          (by norm_num)) (by norm_num)) (by norm_num)
    · exact min_le_right _ _
  refine ⟨?_, ?_, hpw, ?_, ?_, ?_⟩
  · intro keys reprLower
    simp only [calculate_json_ld_confidence]
    constructor
    · refine le_min ?_ (by norm_num)
      refine condAdd_foldl_nonneg (fun prop => pyIn prop reprLower) (1 / 10)
        (by norm_num) business_properties _ ?_
      exact step_nonneg _ _ _ (step_nonneg _ _ _ (step_nonneg _ _ _
        (step_nonneg _ _ _ (step_nonneg _ _ _ (step_nonneg _ _ _
          (by norm_num) (by norm_num)) (by norm_num)) (by norm_num))
          (by norm_num)) (by norm_num)) (by norm_num)
    · exact min_le_right _ _
  · intro d
    simp only [calculate_meta_confidence]
    constructor
    · refine le_min ?_ (by norm_num)
      exact step_nonneg _ _ _ (step_nonneg _ _ _ (step_nonneg _ _ _
        (step_nonneg _ _ _ (step_nonneg _ _ _ (by norm_num) (by norm_num))
          (by norm_num)) (by norm_num)) (by norm_num)) (by norm_num)
    · exact min_le_right _ _
  · intro d
    rcases hpw d with ⟨h0, h1⟩
    unfold requests_fallback_confidence
    constructor <;> nlinarith
  · intro lead scraped r h
    simp only [heuristic_enrichment] at h
    split at h
    · cases h
    · rw [Option.some.injEq] at h
      subst h
      dsimp only
      constructor
      · refine le_min ?_ (by norm_num)
        refine add_nonneg (add_nonneg (add_nonneg (add_nonneg (add_nonneg
          (ite_amount_nonneg _ _ (by norm_num)) (ite_amount_nonneg _ _ (by norm_num)))
          (ite_amount_nonneg _ _ (by norm_num))) (ite_amount_nonneg _ _ (by norm_num)))
          (ite_amount_nonneg _ _ (by norm_num))) (ite_amount_nonneg _ _ (by norm_num))
      · exact min_le_right _ _
  · intro field_count
    unfold llm_confidence
    constructor
    · refine le_min ?_ (by norm_num)
      positivity
    · exact min_le_right _ _

/-- C10, witness: the heuristic confidence bound applied to the concrete
heuristic result of the enrichment scenario. -/
theorem C10_witness :
    heuristic_enrichment c3lead c3scraped = some c3result ∧
    0 ≤ c3result.confidence ∧ c3result.confidence ≤ 9 / 10 :=
  ⟨c3_heuristic_eval,
   C10_theorem.2.2.2.2.1 c3lead c3scraped c3result c3_heuristic_eval⟩

end LeadBoost
